import Mathlib

/-!
Verification development for the persona-flow repository.

The development shallowly embeds, in Lean, the parts of the code the claims
are about:

* `clean_json_response` (agent-runner-service/app/clients.py, lines 74-91):
  the response parser.  The three `re.search` calls are modelled by bespoke
  matchers with Python's leftmost-search / greedy-capture semantics:
  a search scans start positions left to right (`scanFor`), and a greedy
  `.*` before a closing `\x7d \s* `+fence captures up to the last position
  where the rest of the pattern still matches (`lastSplit`).

* `Toolbelt` (agent-runner-service/app/toolbelt.py): the attribute table,
  `get_tool_descriptions`, `_make_request`, the six tool methods and
  `use_tool`.  HTTP traffic is a function parameter (`Http`); Python
  exceptions that escape `use_tool` are modelled with `Except`;
  `json.dumps` is modelled by `dumpsVal` (default separators) and
  `dumpsInd` (indent=2).

* `Agent.run` (agent-runner-service/app/agent.py, lines 56-96): the
  think-act-observe loop, with the LLM client (`invoke`) and pydantic
  decoding (`decode`) as function parameters, mirroring the constructor
  injection in the source.

* the success scan of `run_persona_test_async`
  (agent-runner-service/api_server.py, lines 407-412): `was_successful`.

* the mock API's `/checkout` handler (mock-api-service/app/api.py,
  lines 126-147): `mock_checkout`.
-/

set_option maxRecDepth 4000

namespace PersonaFlow

/-! ### Characters and strings -/

/-- Python's `\s` over the ASCII range (re module, `str.strip`). -/
def isWS (c : Char) : Bool :=
  c == ' ' || c == '\t' || c == '\n' || c == '\r' || c == '\x0b' || c == '\x0c'

/-- Python `str.strip()` on a character list. -/
def trimL (l : List Char) : List Char :=
  ((l.dropWhile isWS).reverse.dropWhile isWS).reverse

/-- Python's `pat in s` substring test, on character lists. -/
def isSubstr (pat : List Char) : List Char → Bool
  | [] => pat.isEmpty
  | c :: cs => pat.isPrefixOf (c :: cs) || isSubstr pat (cs)

/-- Python's `pat in s` substring containment on strings. -/
def containsStr (s pat : String) : Bool := isSubstr pat.data s.data

/-! ### The response parser: `clean_json_response` (clients.py 74-91)

The source applies, in order, the regexes
`r"```json\s*(\x7b.*\x7d)\s*```"`, `r"```\s*(\x7b.*\x7d)\s*```"` and
`r"(\x7b.*\x7d)"`, all with `re.DOTALL`, returning `group(1).strip()` of the
first that matches, else `raw_text.strip()`. -/

/-- The tagged fence token ` ```json `. -/
def jsonTok : List Char := ("```json").data

/-- The bare fence token ` ``` `. -/
def fenceTok : List Char := ("```").data

/-- `re.search` semantics: try to match at each start position, left to
right, and also at the end-of-string position. -/
def scanFor (f : List Char → Option (List Char)) : List Char → Option (List Char)
  | [] => f []
  | c :: cs =>
    match f (c :: cs) with
    | some cap => some cap
    | none => scanFor f (cs)

/-- Generic greedy tail for a capture `(\x7b.*X)`: split `l` after the *last*
character `c` for which `ok c rest` holds (`rest` being what follows), i.e.
the backtracking point the greedy `.*` settles on.  Returns
`(prefixEndingAtC, rest)`. -/
def lastSplit (ok : Char → List Char → Bool) : List Char → Option (List Char × List Char)
  | [] => none
  | c :: rest =>
    match lastSplit ok (rest) with
    | some (p, s) => some (c :: p, s)
    | none => if ok c rest then some ([c], rest) else none

/-- After the captured `\x7d`, the patterns require `\s*` + a closing fence. -/
def fenceAfter (l : List Char) : Bool := fenceTok.isPrefixOf (l.dropWhile isWS)

/-- Closing condition of `(\x7b.*\x7d)\s*``` `: a `\x7d` whose remainder is
whitespace followed by a fence. -/
def closeOk (c : Char) (rest : List Char) : Bool := c == '\x7d' && fenceAfter (rest)

/-- Match ` tok\s*(\x7b.*\x7d)\s*``` ` at the start of `t` (greedy `.*`),
returning the capture group. -/
def matchFenceAt (tok : List Char) (t : List Char) : Option (List Char) :=
  if tok.isPrefixOf t then
    match (t.drop tok.length).dropWhile isWS with
    | '\x7b' :: rs =>
      match lastSplit closeOk (rs) with
      | some (p, _) => some ('\x7b' :: p)
      | none => none
    | _ => none
  else none

/-- Match `(\x7b.*\x7d)` at the start of `t` (greedy `.*`). -/
def matchBraceAt : List Char → Option (List Char)
  | '\x7b' :: cs =>
    match lastSplit (fun c _ => c == '\x7d') (cs) with
    | some (p, _) => some ('\x7b' :: p)
    | none => none
  | _ => none

/-- `clean_json_response` on character lists (clients.py 74-91). -/
def cleanJsonList (raw : List Char) : List Char :=
  match scanFor (matchFenceAt jsonTok) raw with
  | some cap => trimL cap
  | none =>
    match scanFor (matchFenceAt fenceTok) raw with
    | some cap => trimL cap
    | none =>
      match scanFor matchBraceAt raw with
      | some cap => trimL cap
      | none => trimL raw

/-- `clean_json_response` (clients.py 74-91). -/
def clean_json_response (raw_text : String) : String :=
  ⟨cleanJsonList raw_text.data⟩

/-! ### Position-based specification of the search semantics

`firstMatch` states "the match found at the least start position", and
`specLast` states "the split at the greatest index whose character and
remainder satisfy `ok`".  These are the declarative counterparts of the
operational `scanFor` and `lastSplit`. -/

/-- The match at the least start position at which `f` matches. -/
def firstMatch (f : List Char → Option (List Char)) (t : List Char) : Option (List Char) :=
  (List.range (t.length + 1)).findSome? (fun i => f (t.drop i))

/-- The split of `l` after the greatest index `j` such that the character at
`j` together with the remainder after it satisfies `ok`. -/
def specLast (ok : Char → List Char → Bool) (l : List Char) : Option (List Char × List Char) :=
  ((List.range l.length).reverse.find? (fun j => ok (l.getD j ' ') (l.drop (j + 1)))).map
    (fun j => (l.take (j + 1), l.drop (j + 1)))

theorem findSome_over_map {α β γ : Type} (g : β → α) (f : α → Option γ) (l : List β) :
    (l.map g).findSome? f = l.findSome? (fun b => f (g b)) := by
  induction l with
  | nil => rfl
  | cons a l ih =>
    simp only [List.map_cons, List.findSome?]
    cases f (g a) <;> simp [ih]

theorem find_over_map {α β : Type} (g : β → α) (p : α → Bool) (l : List β) :
    (l.map g).find? p = (l.find? (fun b => p (g b))).map g := by
  induction l with
  | nil => rfl
  | cons a l ih =>
    simp only [List.map_cons, List.find?]
    cases p (g a) <;> simp [ih]

theorem find_append_split {α : Type} (p : α → Bool) (xs ys : List α) :
    (xs ++ ys).find? p =
      (match xs.find? p with
       | some x => some x
       | none => ys.find? p) := by
  induction xs with
  | nil => rfl
  | cons a xs ih =>
    simp only [List.cons_append, List.find?]
    cases p a <;> simp [ih]

theorem scanFor_eq (f : List Char → Option (List Char)) :
    ∀ t, scanFor f t = firstMatch f t
  | [] => by
    simp only [scanFor, firstMatch, List.length_nil, Nat.zero_add,
      show List.range 1 = [0] from rfl, List.findSome?, List.drop_nil]
    cases f [] <;> rfl
  | c :: cs => by
    have ih := scanFor_eq f cs
    simp only [firstMatch] at ih ⊢
    rw [show (c :: cs).length + 1 = (cs.length + 1) + 1 from rfl, List.range_succ_eq_map]
    rw [List.findSome?_cons, findSome_over_map]
    simp only [List.drop_succ_cons, List.drop_zero]
    cases h : f (c :: cs) with
    | none => simp [scanFor, h, ih]
    | some cap => simp [scanFor, h]

theorem lastSplit_eq (ok : Char → List Char → Bool) :
    ∀ l, lastSplit ok l = specLast ok l
  | [] => by simp [lastSplit, specLast]
  | c :: rest => by
    have ih := lastSplit_eq ok rest
    rw [show lastSplit ok (c :: rest) =
          (match lastSplit ok rest with
           | some (p, s) => some (c :: p, s)
           | none => if ok c rest then some ([c], rest) else none) from rfl]
    rw [ih]
    simp only [specLast]
    rw [show (c :: rest).length = rest.length + 1 from rfl, List.range_succ_eq_map,
      List.reverse_cons, ← List.map_reverse, find_append_split, find_over_map]
    simp only [List.getD_cons_succ, List.drop_succ_cons, List.getD_cons_zero,
      List.drop_zero, List.take_succ_cons, List.find?]
    cases hf : (List.range rest.length).reverse.find?
        (fun j => ok (rest.getD j ' ') (rest.drop (j + 1))) with
    | some j => simp [List.take_succ_cons, List.drop_succ_cons]
    | none =>
      simp only [hf, Option.map_none', List.find?]
      cases hok : ok c rest <;> simp [hok, List.take_succ_cons]

/-- `matchFenceAt` with its greedy tail stated declaratively. -/
def specMatchFence (tok : List Char) (t : List Char) : Option (List Char) :=
  if tok.isPrefixOf t then
    match (t.drop tok.length).dropWhile isWS with
    | '\x7b' :: rs =>
      match specLast closeOk rs with
      | some (p, _) => some ('\x7b' :: p)
      | none => none
    | _ => none
  else none

/-- `matchBraceAt` with its greedy tail stated declaratively. -/
def specMatchBrace : List Char → Option (List Char)
  | '\x7b' :: cs =>
    match specLast (fun c _ => c == '\x7d') cs with
    | some (p, _) => some ('\x7b' :: p)
    | none => none
  | _ => none

theorem matchFenceAt_eq_spec (tok : List Char) (t : List Char) :
    matchFenceAt tok t = specMatchFence tok t := by
  unfold matchFenceAt specMatchFence
  simp only [lastSplit_eq]

theorem matchBraceAt_eq_spec (t : List Char) :
    matchBraceAt t = specMatchBrace t := by
  unfold matchBraceAt specMatchBrace
  simp only [lastSplit_eq]

/-- The parser algorithm as the amended claim words it: (1) at the least
start position where ` ```json ` + optional whitespace + `\x7b` matches with
some closing `\x7d` + optional whitespace + fence after it, capture up to the
greatest such closing position; (2) else the same for a bare ` ``` ` fence
occurring anywhere (the text need not be wrapped in it); (3) else from the
least-position `\x7b` having a later `\x7d`, capture up to the greatest
`\x7d` position; (4) else the trimmed raw text. -/
def specCleanAmended (raw : List Char) : List Char :=
  match firstMatch (specMatchFence jsonTok) raw with
  | some cap => trimL cap
  | none =>
    match firstMatch (specMatchFence fenceTok) raw with
    | some cap => trimL cap
    | none =>
      match firstMatch specMatchBrace raw with
      | some cap => trimL cap
      | none => trimL raw

/-! ### The parser algorithm as §4.2 of the spec words it, read literally

Clause 1: "if text contains a fenced block whose fence is tagged as a
structured-data block, greedily capture the outermost `\x7b...\x7d` *within
it*" — the block is the text between the first ` ```json ` and the next
` ``` `, and the outermost braces are taken within that block.
Clause 2: "else if *wrapped in* a generic (untagged) fenced block" — the
trimmed text starts and ends with ` ``` `.
Clause 3: the first outermost `\x7b...\x7d` anywhere.  Clause 4: trimmed raw
text.  Where a clause's precondition holds but its block contains no brace
pair, we fall through to the next clause (the spec leaves this case open;
the counterexample below does not depend on that resolution). -/

/-- The suffix right after the first occurrence of `tok`, if `tok` occurs. -/
def findTok (tok : List Char) : List Char → Option (List Char)
  | [] => if tok.isEmpty then some [] else none
  | c :: cs =>
    if tok.isPrefixOf (c :: cs) then some ((c :: cs).drop tok.length)
    else findTok tok (cs)

/-- The content before the next occurrence of `tok`; none if `tok` never
occurs. -/
def takeUntilTok (tok : List Char) : List Char → Option (List Char)
  | [] => if tok.isEmpty then some [] else none
  | c :: cs =>
    if tok.isPrefixOf (c :: cs) then some []
    else (takeUntilTok tok (cs)).map (c :: ·)

/-- The outermost brace group of a text: from its first `\x7b` to its last
`\x7d`, when both exist in that order. -/
def outermost : List Char → Option (List Char)
  | [] => none
  | c :: cs =>
    if c == '\x7b' then
      match lastSplit (fun d _ => d == '\x7d') cs with
      | some (p, _) => some ('\x7b' :: p)
      | none => none
    else outermost (cs)

/-- Clause 1 of §4.2 read literally: capture within the first tagged block. -/
def specBlockCapture (tok : List Char) (t : List Char) : Option (List Char) :=
  match findTok tok t with
  | none => none
  | some afterTag =>
    match takeUntilTok fenceTok afterTag with
    | none => none
    | some content => outermost content

/-- Clause 2 of §4.2 read literally: the text (trimmed) is wrapped in a
generic fenced block. -/
def wrappedCapture (t : List Char) : Option (List Char) :=
  let tr := trimL t
  if fenceTok.isPrefixOf tr && fenceTok.isSuffixOf tr && decide (6 ≤ tr.length) then
    outermost ((tr.drop 3).take (tr.length - 6))
  else none

/-- The §4.2 parser algorithm, read literally. -/
def specParseOriginal (t : List Char) : List Char :=
  match specBlockCapture jsonTok t with
  | some cap => trimL cap
  | none =>
    match wrappedCapture t with
    | some cap => trimL cap
    | none =>
      match outermost t with
      | some cap => trimL cap
      | none => trimL t

/-! ### Claims C4 and C5 -/

/-- The two-block input of the repository's own
`test_clean_json_response_edge_cases` ("Multiple JSON blocks (should get the
first one)"). -/
def multipleBlocksInput : String :=
  "```json\n\x7b\"first\": \"block\"\x7d\n```\nSome text\n```json\n\x7b\"second\": \"block\"\x7d\n```"

/-- C4: on a text with two ` ```json ` blocks the greedy capture of
`clean_json_response` runs from the opening brace of the first block to the
closing brace of the *second* block, so the parser does **not** return the
content of the first block only: the result strictly contains the second
block's content (and is not even the first block's object).  This
contradicts the claim and the repository's own test
`test_clean_json_response_edge_cases`, which asserts that the first block's
object is returned and parses as JSON — the code is the buggy side. -/
theorem two_json_blocks_greedy_overrun :
    clean_json_response multipleBlocksInput
        = "\x7b\"first\": \"block\"\x7d\n```\nSome text\n```json\n\x7b\"second\": \"block\"\x7d" ∧
      clean_json_response multipleBlocksInput ≠ "\x7b\"first\": \"block\"\x7d" ∧
      containsStr (clean_json_response multipleBlocksInput) ("\"second\"") = true := by
  refine ⟨by decide, by decide, by decide⟩

/-- Input on which the code's clause 2 (bare fence searched anywhere) and the
spec's clause 2 ("wrapped in a generic fenced block") part ways: the text is
not wrapped in the fence, so the literal spec algorithm falls through to its
clause 3 and captures from the first brace to the last brace of the whole
text, while the code's second regex matches the fenced object. -/
def specAlgoCexInput : String := "x ``` \x7b\"a\": 1\x7d ``` y \x7b\"b\": 2\x7d z"

/-- C5 (counterexample): `clean_json_response` does not implement the §4.2
algorithm as literally worded — on `specAlgoCexInput` the code returns the
object inside the (non-wrapping) bare fence, whereas the literal algorithm
returns the brace-to-brace span of the whole text. -/
theorem clean_json_spec_algorithm_cex :
    clean_json_response specAlgoCexInput = "\x7b\"a\": 1\x7d" ∧
      (⟨specParseOriginal specAlgoCexInput.data⟩ : String)
        = "\x7b\"a\": 1\x7d ``` y \x7b\"b\": 2\x7d" ∧
      clean_json_response specAlgoCexInput
        ≠ (⟨specParseOriginal specAlgoCexInput.data⟩ : String) := by
  refine ⟨by decide, by decide, by decide⟩

/-- C5 (amended): for every input string the parser applies the ordered,
first-match-wins algorithm of `specCleanAmended`: (1) if ` ```json ` +
optional whitespace + an opening brace occurs anywhere with a closing brace
followed (after optional whitespace) by a fence, capture greedily from the
first such position to the last such closing brace of the whole text — the
capture is not confined to the first fenced block; (2) else the same for a
bare ` ``` ` fence occurring anywhere — the text need not be wrapped in the
block; (3) else capture from the first opening brace to the last closing
brace anywhere; (4) else return the trimmed raw text. -/
theorem clean_json_matches_amended_algorithm (raw : String) :
    clean_json_response raw = ⟨specCleanAmended raw.data⟩ := by
  unfold clean_json_response cleanJsonList specCleanAmended
  rw [scanFor_eq, scanFor_eq, scanFor_eq]
  rw [show matchFenceAt jsonTok = specMatchFence jsonTok from
        funext fun t => matchFenceAt_eq_spec jsonTok t,
      show matchFenceAt fenceTok = specMatchFence fenceTok from
        funext fun t => matchFenceAt_eq_spec fenceTok t,
      show matchBraceAt = specMatchBrace from funext fun t => matchBraceAt_eq_spec t]

/-! ### Python values and `json.dumps`

Dynamic (JSON-shaped) Python values, and the two `json.dumps` renderings the
source uses: default separators (`json.dumps(x)`, toolbelt.py line 60) and
`indent=2` (`json.dumps(x, indent=2)`, toolbelt.py line 64).  String
escaping covers the escapes arising in the modelled data (quote, backslash
and common control characters). -/

inductive PyVal where
  | vStr : String → PyVal
  | vInt : Int → PyVal
  | vBool : Bool → PyVal
  | vList : List PyVal → PyVal
  | vDict : List (String × PyVal) → PyVal
deriving Repr

/-- JSON string escaping for one character. -/
def escChar (c : Char) : String :=
  if c == '"' then "\\\"" else if c == '\\' then "\\\\"
  else if c == '\n' then "\\n" else if c == '\t' then "\\t"
  else if c == '\r' then "\\r" else if c == '\x08' then "\\b"
  else if c == '\x0c' then "\\f" else String.singleton c

/-- JSON string escaping. -/
def escape (s : String) : String := String.join (s.data.map escChar)

/-- A JSON-quoted string literal. -/
def quoteStr (s : String) : String := "\"" ++ escape s ++ "\""

mutual

/-- `json.dumps` with default separators. -/
def dumpsVal : PyVal → String
  | .vStr s => quoteStr s
  | .vInt n => toString n
  | .vBool b => if b then "true" else "false"
  | .vList l => "[" ++ dumpsElems l ++ "]"
  | .vDict l => "\x7b" ++ dumpsFields l ++ "\x7d"

def dumpsElems : List PyVal → String
  | [] => ""
  | [v] => dumpsVal v
  | v :: vs => dumpsVal v ++ ", " ++ dumpsElems vs

def dumpsFields : List (String × PyVal) → String
  | [] => ""
  | [(k, v)] => quoteStr k ++ ": " ++ dumpsVal v
  | (k, v) :: fs => quoteStr k ++ ": " ++ dumpsVal v ++ ", " ++ dumpsFields fs

end

/-- `n` spaces. -/
def spaces (n : Nat) : String := ⟨List.replicate n ' '⟩

mutual

/-- `json.dumps` with `indent=2`, at nesting level `lvl`. -/
def dumpsInd : Nat → PyVal → String
  | _, .vStr s => quoteStr s
  | _, .vInt n => toString n
  | _, .vBool b => if b then "true" else "false"
  | _, .vList [] => "[]"
  | lvl, .vList (v :: vs) =>
    "[\n" ++ dumpsIndElems (lvl + 1) (v :: vs) ++ "\n" ++ spaces (2 * lvl) ++ "]"
  | _, .vDict [] => "\x7b\x7d"
  | lvl, .vDict (f :: fs) =>
    "\x7b\n" ++ dumpsIndFields (lvl + 1) (f :: fs) ++ "\n" ++ spaces (2 * lvl) ++ "\x7d"

def dumpsIndElems : Nat → List PyVal → String
  | _, [] => ""
  | lvl, [v] => spaces (2 * lvl) ++ dumpsInd lvl v
  | lvl, v :: vs => spaces (2 * lvl) ++ dumpsInd lvl v ++ ",\n" ++ dumpsIndElems lvl vs

def dumpsIndFields : Nat → List (String × PyVal) → String
  | _, [] => ""
  | lvl, [(k, v)] => spaces (2 * lvl) ++ quoteStr k ++ ": " ++ dumpsInd lvl v
  | lvl, (k, v) :: fs =>
    spaces (2 * lvl) ++ quoteStr k ++ ": " ++ dumpsInd lvl v ++ ",\n" ++
      dumpsIndFields lvl fs

end

/-! ### The Toolbelt (toolbelt.py)

The HTTP layer (`requests`) is a function parameter: given a method, an
endpoint and the keyword payload of `requests.request`, it yields either the
decoded JSON body, an HTTP-status failure carrying `status_code` and the
response text (the `raise_for_status` path), or another exception's message
(the generic `except` path).  A Python exception escaping a modelled call is
an `Except.error`. -/

/-- A Python exception escaping a call. -/
inductive PyErr where
  | typeError (msg : String)
deriving DecidableEq, Repr

/-- Outcome of one HTTP request, as seen by `_make_request`. -/
inductive HttpResp where
  | success (body : PyVal)
  | httpError (statusCode : Int) (text : String)
  | failure (details : String)

/-- The HTTP collaborator: method, endpoint, keyword payload. -/
abbrev Http := String → String → List (String × PyVal) → HttpResp

/-- `Toolbelt._make_request` (toolbelt.py 24-33). -/
def _make_request (http : Http) (method endpoint : String)
    (kwargs : List (String × PyVal)) : PyVal :=
  match http method endpoint kwargs with
  | .success j => j
  | .httpError st txt =>
    .vDict [("error", .vStr "HTTPError"), ("status_code", .vInt st), ("details", .vStr txt)]
  | .failure d => .vDict [("error", .vStr "Exception"), ("details", .vStr d)]

/-- Python `str()` of a value, as used by the f-string in
`get_product_total_cost`'s endpoint; container reprs are abbreviated (no
claim depends on them). -/
def pyStr : PyVal → String
  | .vStr s => s
  | .vInt n => toString n
  | .vBool b => if b then "True" else "False"
  | .vList _ => "[...]"
  | .vDict _ => "\x7b...\x7d"

/-- `Toolbelt.get_tool_descriptions` (toolbelt.py 11-22). -/
def get_tool_descriptions : String :=
  "get_products(): Lists all available products.\n" ++
  "search_products(q: str): Searches for products by a query string.\n" ++
  "add_to_cart(item_id: int, quantity: int): Adds a specific product to the cart.\n" ++
  "get_cart(): Retrieves the current contents of the shopping cart.\n" ++
  "get_product_total_cost(product_id: int): Gets the full cost of a single product, including all fees.\n" ++
  "checkout(shipping_address: str, billing_address: str): Attempts to complete the purchase."

/-- `Toolbelt.get_products` (toolbelt.py 37-38). -/
def get_products (http : Http) : PyVal :=
  _make_request http "GET" "/products" []

/-- `Toolbelt.search_products` (toolbelt.py 40-41). -/
def search_products (http : Http) (q : PyVal) : PyVal :=
  _make_request http "GET" "/search" [("params", .vDict [("q", q)])]

/-- `Toolbelt.add_to_cart` (toolbelt.py 43-44). -/
def add_to_cart (http : Http) (item_id quantity : PyVal) : PyVal :=
  _make_request http "POST" "/cart/add"
    [("json", .vDict [("item_id", item_id), ("quantity", quantity)])]

/-- `Toolbelt.get_cart` (toolbelt.py 46-47). -/
def get_cart (http : Http) : PyVal :=
  _make_request http "GET" "/cart" []

/-- `Toolbelt.get_product_total_cost` (toolbelt.py 49-50). -/
def get_product_total_cost (http : Http) (product_id : PyVal) : PyVal :=
  _make_request http "GET" ("/products/" ++ pyStr product_id ++ "/total_cost") []

/-- `Toolbelt.checkout` (toolbelt.py 52-55): sends only the two advertised
fields; no `tax_id`. -/
def checkout (http : Http) (shipping_address billing_address : PyVal) : PyVal :=
  _make_request http "POST" "/checkout"
    [("json", .vDict [("shipping_address", shipping_address),
                      ("billing_address", billing_address)])]

/-- The attributes a `Toolbelt` instance exposes: the instance attribute set
in `__init__` plus the methods defined by the class, in source order.
(Attributes inherited from `object` — dunder names — exist on the Python
object too but lie outside this table; no claim mentions them.) -/
def toolbeltAttrs : List String :=
  ["base_url", "get_tool_descriptions", "_make_request", "get_products",
   "search_products", "add_to_cart", "get_cart", "get_product_total_cost",
   "checkout", "use_tool"]

/-- `hasattr(self, tool_name)` of toolbelt.py line 59. -/
def hasattrToolbelt (name : String) : Bool := toolbeltAttrs.contains name

/-- The keys of a keyword-argument dict. -/
def keysOf (ps : List (String × PyVal)) : List String := ps.map Prod.fst

/-- Whether calling a function whose parameters are exactly `expected` with
keyword arguments `ps` binds: every key is expected and every expected
parameter is supplied.  (Python dict keys are unique, so set equality is
exact binding.) -/
def keysMatch (ps : List (String × PyVal)) (expected : List String) : Bool :=
  (keysOf ps).all (fun k => expected.contains k) &&
    expected.all (fun k => (keysOf ps).contains k)

/-- The `TypeError` Python raises when `tool_function(**parameters)` has
missing or unexpected keyword arguments. -/
def argErrE (name : String) : PyErr :=
  .typeError ("unexpected or missing arguments for " ++ name ++ "()")

/-- The JSON text of toolbelt.py line 60. -/
def notFoundText (name : String) : String :=
  dumpsVal (.vDict [("error", .vStr ("Tool \x27" ++ name ++ "\x27 not found."))])

/-- The dispatch body of `Toolbelt.use_tool` (toolbelt.py 57-64), with the
self-referential call through the `use_tool` attribute abstracted as
`recurse` (the knot is tied below).  Dispatch mirrors the `hasattr` check,
`getattr` and `tool_function(**parameters)`: a non-dict `parameters`, a key
mismatch, or a non-callable attribute raise `TypeError`; results are
serialized with `json.dumps(result, indent=2)`. -/
def use_toolGo (http : Http) (recurse : String → PyVal → Except PyErr String)
    (name : String) (params : PyVal) : Except PyErr String :=
  if hasattrToolbelt name = false then
    .ok (notFoundText name)
  else
    match params with
    | .vDict ps =>
      match name with
      | "get_products" =>
        if keysMatch ps [] then .ok (dumpsInd 0 (get_products http))
        else .error (argErrE name)
      | "search_products" =>
        if keysMatch ps ["q"] then
          match ps.lookup "q" with
          | some q => .ok (dumpsInd 0 (search_products http q))
          | none => .error (argErrE name)
        else .error (argErrE name)
      | "add_to_cart" =>
        if keysMatch ps ["item_id", "quantity"] then
          match ps.lookup "item_id", ps.lookup "quantity" with
          | some i, some qt => .ok (dumpsInd 0 (add_to_cart http i qt))
          | _, _ => .error (argErrE name)
        else .error (argErrE name)
      | "get_cart" =>
        if keysMatch ps [] then .ok (dumpsInd 0 (get_cart http))
        else .error (argErrE name)
      | "get_product_total_cost" =>
        if keysMatch ps ["product_id"] then
          match ps.lookup "product_id" with
          | some pid => .ok (dumpsInd 0 (get_product_total_cost http pid))
          | none => .error (argErrE name)
        else .error (argErrE name)
      | "checkout" =>
        if keysMatch ps ["shipping_address", "billing_address"] then
          match ps.lookup "shipping_address", ps.lookup "billing_address" with
          | some sa, some ba => .ok (dumpsInd 0 (checkout http sa ba))
          | _, _ => .error (argErrE name)
        else .error (argErrE name)
      | "get_tool_descriptions" =>
        if keysMatch ps [] then .ok (dumpsInd 0 (.vStr get_tool_descriptions))
        else .error (argErrE name)
      | "base_url" =>
        .error (.typeError "\x27str\x27 object is not callable")
      | "_make_request" =>
        if (keysOf ps).contains "method" && (keysOf ps).contains "endpoint" then
          match ps.lookup "method", ps.lookup "endpoint" with
          | some m, some e =>
            .ok (dumpsInd 0 (_make_request http (pyStr m) (pyStr e)
              (ps.filter (fun kv => !(kv.1 == "method" || kv.1 == "endpoint")))))
          | _, _ => .error (argErrE name)
        else .error (argErrE name)
      | "use_tool" =>
        if keysMatch ps ["tool_name", "parameters"] then
          match ps.lookup "tool_name", ps.lookup "parameters" with
          | some (.vStr inner), some innerParams =>
            (match recurse inner innerParams with
             | .ok s => .ok (dumpsInd 0 (.vStr s))
             | .error e => .error e)
          | some _, some _ => .error (.typeError "attribute name must be string")
          | _, _ => .error (argErrE name)
        else .error (argErrE name)
      | _ => .error (.typeError "unreachable attribute")
    | _ => .error (.typeError "argument after ** must be a mapping")

mutual

/-- Structural size of a Python value (recursion budget measure). -/
def pySize : PyVal → Nat
  | .vStr _ => 1
  | .vInt _ => 1
  | .vBool _ => 1
  | .vList l => 1 + pySizeList l
  | .vDict l => 1 + pySizeDict l

def pySizeList : List PyVal → Nat
  | [] => 0
  | v :: vs => pySize v + pySizeList vs + 1

def pySizeDict : List (String × PyVal) → Nat
  | [] => 0
  | (_, v) :: fs => pySize v + pySizeDict fs + 1

end

/-- The recursive knot of `use_tool`, with a structural budget: each
self-call through the `use_tool` attribute strictly shrinks the `parameters`
value, so `pySize` of the parameters bounds the recursion depth (Python's
recursion limit plays the corresponding role; the budget the wrapper below
supplies is never exhausted on dict parameters). -/
def use_toolF (http : Http) : Nat → String → PyVal → Except PyErr String
  | 0 => use_toolGo http (fun _ _ => .error (.typeError "maximum recursion depth exceeded"))
  | fuel + 1 => use_toolGo http (fun inner innerParams => use_toolF http fuel inner innerParams)

/-- `Toolbelt.use_tool` (toolbelt.py 57-64). -/
def use_tool (http : Http) (name : String) (params : PyVal) : Except PyErr String :=
  use_toolGo http (fun inner innerParams => use_toolF http (pySize innerParams) inner innerParams)
    name params

/-! ### Compact JSON (starlette response bodies, pydantic `model_dump_json`)

FastAPI serializes response bodies with `separators=(",", ":")`, and
pydantic's `model_dump_json` uses the same compact separators. -/

mutual

/-- `json.dumps` with compact separators. -/
def dumpCVal : PyVal → String
  | .vStr s => quoteStr s
  | .vInt n => toString n
  | .vBool b => if b then "true" else "false"
  | .vList l => "[" ++ dumpCElems l ++ "]"
  | .vDict l => "\x7b" ++ dumpCFields l ++ "\x7d"

def dumpCElems : List PyVal → String
  | [] => ""
  | [v] => dumpCVal v
  | v :: vs => dumpCVal v ++ "," ++ dumpCElems vs

def dumpCFields : List (String × PyVal) → String
  | [] => ""
  | [(k, v)] => quoteStr k ++ ":" ++ dumpCVal v
  | (k, v) :: fs => quoteStr k ++ ":" ++ dumpCVal v ++ "," ++ dumpCFields fs

end

/-! ### The mock API's checkout endpoint (mock-api-service/app/api.py 126-147) -/

/-- The `/checkout` handler: requires `shipping_address`, `billing_address`
and the undocumented `tax_id`; missing fields raise an HTTP 400 whose body
(FastAPI's rendering of the `HTTPException` detail) lists them; otherwise
answers `"Checkout successful"`. -/
def mock_checkout (checkout_data : PyVal) : HttpResp :=
  let required : List String := ["shipping_address", "billing_address", "tax_id"]
  let missing : List String :=
    match checkout_data with
    | .vDict d => required.filter (fun f => (d.lookup f).isNone)
    | _ => required
  if missing.isEmpty then
    .success (.vDict [("message", .vStr "Checkout successful"), ("order_id", .vStr "12345")])
  else
    .httpError 400 (dumpCVal (.vDict [("detail", .vDict
      [("error", .vStr "Missing required fields"),
       ("required_fields", .vList (required.map PyVal.vStr)),
       ("missing", .vList (missing.map PyVal.vStr))])]))

/-! ### The agent loop (agent.py 56-96)

`Agent.run` is a loop of at most `max_steps` iterations.  Per iteration it
renders the prompt, invokes the LLM client, decodes the raw output with
`LLMResponse.model_validate_json` (pydantic, modelled as the abstract
`decode` collaborator: `none` is a raised `ValidationError`), and on success
appends the decision and the tool observation to memory, breaking early when
the observation contains the goal marker.  A decode failure breaks the loop
(`except`/`break`); an exception escaping `use_tool` propagates out of
`run`.  `RunResult` records the final memory, the number of iterations
started and how the loop ended. -/

/-- `Persona` (personas.py 6-8). -/
structure Persona where
  name : String
  system_prompt : String

/-- One turn of `Agent.memory` (agent.py 22, 77-79, 89). -/
structure MemEntry where
  role : String
  content : String
deriving DecidableEq, Repr

/-- `LLMResponse` (agent.py 9-14). -/
structure LLMResp where
  thought : String
  tool_name : String
  parameters : List (String × PyVal)

/-- `LLMResponse.model_dump_json()` (pydantic v2: declared field order,
compact separators). -/
def dumpResp (r : LLMResp) : String :=
  "\x7b\"thought\":" ++ quoteStr r.thought ++ ",\"tool_name\":" ++
    quoteStr r.tool_name ++ ",\"parameters\":" ++ dumpCVal (.vDict r.parameters) ++ "\x7d"

/-- `Agent._create_prompt` (agent.py 24-54). -/
def createPrompt (persona : Persona) (goal : String) (memory : List MemEntry) : String :=
  let history := String.intercalate "\n" (memory.map (fun m => m.role ++ ":\n" ++ m.content))
  "\n" ++ spaces 20 ++ persona.system_prompt ++ "\n\n" ++ spaces 20 ++
  "Your ultimate goal is: \"" ++ goal ++ "\"\n\n" ++ spaces 20 ++
  "You have the following tools available:\n" ++ spaces 20 ++
  get_tool_descriptions ++ "\n\n" ++ spaces 20 ++
  "This is the history of your actions and observations so far:\n" ++ spaces 20 ++
  "<history>\n" ++ spaces 20 ++
  (if history == "" then "No actions taken yet." else history) ++ "\n" ++ spaces 20 ++
  "</history>\n\n" ++ spaces 20 ++
  "Based on your persona, the goal, and the history, what is your next step?\n" ++
  spaces 20 ++ "You MUST respond in the following JSON format:\n" ++ spaces 20 ++
  "\x7b\n" ++ spaces 20 ++
  "\"thought\": \"Your detailed thought process and critique of the last observation.\",\n" ++
  spaces 20 ++ "\"tool_name\": \"The single tool you will use next.\",\n" ++ spaces 20 ++
  "\"parameters\": \x7b \"param_name\": \"param_value\" \x7d\n" ++ spaces 20 ++
  "\x7d\n" ++ spaces 16

/-- How `Agent.run` ended. -/
inductive Outcome where
  | decodeFailed
  | raised (e : PyErr)
  | success
  | exhausted
deriving DecidableEq, Repr

/-- Observable result of `Agent.run`: final memory, iterations started, and
how the loop ended. -/
structure RunResult where
  memory : List MemEntry
  steps : Nat
  outcome : Outcome
deriving DecidableEq, Repr

/-- The goal marker of agent.py line 92. -/
def checkoutMarker : String := "Checkout successful"

/-- The `for step in range(max_steps)` loop of `Agent.run` (agent.py 59-94),
parameterized by the injected collaborators: `invoke` (the LLM client),
`decode` (pydantic's `model_validate_json`, `none` = `ValidationError`), and
`useTool` (`self.toolbelt.use_tool`; an `Except.error` is an exception that
propagates out of `run`). -/
def runLoop (invoke : String → String) (decode : String → Option LLMResp)
    (useTool : String → List (String × PyVal) → Except PyErr String)
    (persona : Persona) (goal : String) : Nat → List MemEntry → RunResult
  | 0, mem => ⟨mem, 0, .exhausted⟩
  | n + 1, mem =>
    let out := invoke (createPrompt persona goal mem)
    match decode out with
    | none => ⟨mem, 1, .decodeFailed⟩
    | some r =>
      let mem1 := mem ++ [⟨"assistant", dumpResp r⟩]
      match useTool r.tool_name r.parameters with
      | .error e => ⟨mem1, 1, .raised e⟩
      | .ok txt =>
        let mem2 := mem1 ++ [⟨"tool_observation", txt⟩]
        if containsStr txt checkoutMarker then ⟨mem2, 1, .success⟩
        else
          let rest := runLoop invoke decode useTool persona goal n mem2
          ⟨rest.memory, rest.steps + 1, rest.outcome⟩

/-- `Agent.run` (agent.py 56-96): the loop started on fresh memory. -/
def Agent_run (invoke : String → String) (decode : String → Option LLMResp)
    (useTool : String → List (String × PyVal) → Except PyErr String)
    (persona : Persona) (goal : String) (max_steps : Nat) : RunResult :=
  runLoop invoke decode useTool persona goal max_steps []

/-- The success scan of `run_persona_test_async` (api_server.py 407-412):
`was_successful` is true iff some memory entry's content contains
`"Checkout successful"` or `"ORDER CONFIRMED"`. -/
def was_successful (memory : List MemEntry) : Bool :=
  memory.any (fun e =>
    containsStr e.content ("Checkout successful") || containsStr e.content ("ORDER CONFIRMED"))

/-! ### Loop invariants -/

/-- Memory only grows: the loop's final memory extends its starting memory. -/
theorem runLoop_mem_extends (invoke : String → String) (decode : String → Option LLMResp)
    (useTool : String → List (String × PyVal) → Except PyErr String)
    (p : Persona) (g : String) :
    ∀ (n : Nat) (mem : List MemEntry),
      ∃ suf, (runLoop invoke decode useTool p g n mem).memory = mem ++ suf
  | 0, mem => ⟨[], by simp [runLoop]⟩
  | n + 1, mem => by
    simp only [runLoop]
    cases hd : decode (invoke (createPrompt p g mem)) with
    | none => exact ⟨[], by simp [hd]⟩
    | some r =>
      cases ht : useTool r.tool_name r.parameters with
      | error e => exact ⟨[⟨"assistant", dumpResp r⟩], by simp [hd, ht]⟩
      | ok txt =>
        cases hm : containsStr txt checkoutMarker with
        | true =>
          exact ⟨[⟨"assistant", dumpResp r⟩, ⟨"tool_observation", txt⟩], by simp [hd, ht, hm]⟩
        | false =>
          obtain ⟨suf, hsuf⟩ := runLoop_mem_extends invoke decode useTool p g n
            (mem ++ [⟨"assistant", dumpResp r⟩, ⟨"tool_observation", txt⟩])
          exact ⟨[⟨"assistant", dumpResp r⟩, ⟨"tool_observation", txt⟩] ++ suf, by
            simp [hd, ht, hm, hsuf]⟩

/-- The loop starts at most `n` iterations when given budget `n`. -/
theorem runLoop_steps_le (invoke : String → String) (decode : String → Option LLMResp)
    (useTool : String → List (String × PyVal) → Except PyErr String)
    (p : Persona) (g : String) :
    ∀ (n : Nat) (mem : List MemEntry),
      (runLoop invoke decode useTool p g n mem).steps ≤ n
  | 0, mem => by simp [runLoop]
  | n + 1, mem => by
    simp only [runLoop]
    cases hd : decode (invoke (createPrompt p g mem)) with
    | none => simp [hd]
    | some r =>
      cases ht : useTool r.tool_name r.parameters with
      | error e => simp [hd, ht]
      | ok txt =>
        cases hm : containsStr txt checkoutMarker with
        | true => simp [hd, ht, hm]
        | false =>
          have ih := runLoop_steps_le invoke decode useTool p g n
            (mem ++ [⟨"assistant", dumpResp r⟩, ⟨"tool_observation", txt⟩])
          simp [hd, ht, hm]
          omega

/-- One successful iteration: decode succeeds, the tool returns text without
the goal marker, and the loop carries on with both turns appended. -/
theorem runLoop_step_ok (invoke : String → String) (decode : String → Option LLMResp)
    (useTool : String → List (String × PyVal) → Except PyErr String)
    (p : Persona) (g : String) (n : Nat) (mem : List MemEntry) (r : LLMResp) (txt : String)
    (hr : decode (invoke (createPrompt p g mem)) = some r)
    (ht : useTool r.tool_name r.parameters = .ok txt)
    (hm : containsStr txt checkoutMarker = false) :
    runLoop invoke decode useTool p g (n + 1) mem =
      ⟨(runLoop invoke decode useTool p g n
          (mem ++ [⟨"assistant", dumpResp r⟩, ⟨"tool_observation", txt⟩])).memory,
        (runLoop invoke decode useTool p g n
          (mem ++ [⟨"assistant", dumpResp r⟩, ⟨"tool_observation", txt⟩])).steps + 1,
        (runLoop invoke decode useTool p g n
          (mem ++ [⟨"assistant", dumpResp r⟩, ⟨"tool_observation", txt⟩])).outcome⟩ := by
  simp [runLoop, hr, ht, hm]

/-! ### Sample collaborators used by witnesses

Concrete stand-ins for the injected collaborators, in the spirit of the
repository's own `MockLLMClient` (clients.py 394-403). -/

/-- An HTTP collaborator no modelled path ever reaches. -/
def httpNull : Http := fun _ _ _ => .failure "unreachable"

/-- A sample persona (cf. personas.py `CASUAL_SHOPPER`). -/
def samplePersona : Persona := ⟨"Casual Casey", "You are Casey, a casual online shopper."⟩

/-- A sample goal. -/
def sampleGoal : String := "Buy a wireless mouse."

/-- A Gateway that answers with plain prose, no JSON. -/
def proseInvoke : String → String := fun _ => "I think you should search."

/-- Pydantic validation of prose output: `model_validate_json` raises on any
input this client produces. -/
def proseDecode : String → Option LLMResp := fun _ => none

/-- A tool collaborator returning an empty JSON object. -/
def okTool : String → List (String × PyVal) → Except PyErr String :=
  fun _ _ => .ok ("\x7b\x7d")

/-! ### Claim C1 -/

/-- C1: if decoding the Gateway's raw output into a Decision fails, the
agent loop terminates immediately: the iteration counts as the single step
started (so the step is not retried and no later step runs — each started
step performs exactly one Gateway call), the outcome is the decode failure,
and memory is exactly the memory the step started from (nothing was
appended).  Instantiated at fresh memory this gives a loop that ends after
step 1 with zero assistant entries. -/
theorem decode_failure_halts_loop
    (invoke : String → String) (decode : String → Option LLMResp)
    (useTool : String → List (String × PyVal) → Except PyErr String)
    (p : Persona) (g : String) (n : Nat) (mem : List MemEntry)
    (h : decode (invoke (createPrompt p g mem)) = none) :
    runLoop invoke decode useTool p g (n + 1) mem = ⟨mem, 1, .decodeFailed⟩ := by
  simp [runLoop, h]

/-- C1 witness: a Gateway whose first response is `"I think you should
search."` makes the run end after step 1 with empty memory. -/
theorem decode_failure_halts_loop_witness :
    proseDecode (proseInvoke (createPrompt samplePersona sampleGoal [])) = none ∧
      runLoop proseInvoke proseDecode okTool samplePersona sampleGoal 3 []
        = ⟨[], 1, .decodeFailed⟩ :=
  ⟨rfl, decode_failure_halts_loop proseInvoke proseDecode okTool samplePersona sampleGoal
    2 [] rfl⟩

/-! ### Claim C2 -/

/-- C2: when a step's decode succeeds and the Tool Registry returns text
`txt` — whatever it is, success payload or error envelope — that text is
appended to Memory as a `tool_observation` turn (the post-step memory begins
with the starting memory followed by the `assistant` turn and the
observation), and when `txt` does not contain the goal marker the loop
carries on into the next step with the remaining budget; a tool-level error
envelope never terminates the loop. -/
theorem tool_text_observed_and_loop_continues
    (invoke : String → String) (decode : String → Option LLMResp)
    (useTool : String → List (String × PyVal) → Except PyErr String)
    (p : Persona) (g : String) (n : Nat) (mem : List MemEntry) (r : LLMResp) (txt : String)
    (hr : decode (invoke (createPrompt p g mem)) = some r)
    (ht : useTool r.tool_name r.parameters = .ok txt) :
    ((runLoop invoke decode useTool p g (n + 1) mem).memory.take (mem.length + 2)
        = mem ++ [⟨"assistant", dumpResp r⟩, ⟨"tool_observation", txt⟩]) ∧
      (containsStr txt checkoutMarker = false →
        runLoop invoke decode useTool p g (n + 1) mem =
          ⟨(runLoop invoke decode useTool p g n
              (mem ++ [⟨"assistant", dumpResp r⟩, ⟨"tool_observation", txt⟩])).memory,
            (runLoop invoke decode useTool p g n
              (mem ++ [⟨"assistant", dumpResp r⟩, ⟨"tool_observation", txt⟩])).steps + 1,
            (runLoop invoke decode useTool p g n
              (mem ++ [⟨"assistant", dumpResp r⟩, ⟨"tool_observation", txt⟩])).outcome⟩) := by
  constructor
  · cases hm : containsStr txt checkoutMarker with
    | true =>
      have hmem : (runLoop invoke decode useTool p g (n + 1) mem).memory
          = mem ++ [⟨"assistant", dumpResp r⟩, ⟨"tool_observation", txt⟩] := by
        simp [runLoop, hr, ht, hm]
      rw [hmem]
      exact List.take_of_length_le (by simp)
    | false =>
      rw [runLoop_step_ok invoke decode useTool p g n mem r txt hr ht hm]
      obtain ⟨suf, hsuf⟩ := runLoop_mem_extends invoke decode useTool p g n
        (mem ++ [⟨"assistant", dumpResp r⟩, ⟨"tool_observation", txt⟩])
      show (runLoop invoke decode useTool p g n
          (mem ++ [⟨"assistant", dumpResp r⟩, ⟨"tool_observation", txt⟩])).memory.take
            (mem.length + 2) = _
      rw [hsuf]
      exact List.take_left' (by simp)
  · intro hm
    exact runLoop_step_ok invoke decode useTool p g n mem r txt hr ht hm

/-! ### Claims C9 and C2's envelope (shared constants) -/

/-- The FastAPI body of the mock `/checkout` 400 response when only the two
advertised fields are sent (compact separators, starlette rendering). -/
def missingTaxDetail : String :=
  dumpCVal (.vDict [("detail", .vDict
    [("error", .vStr "Missing required fields"),
     ("required_fields", .vList (["shipping_address", "billing_address", "tax_id"].map PyVal.vStr)),
     ("missing", .vList (["tax_id"].map PyVal.vStr))])])

/-- The observation text `use_tool` hands back for such a checkout: the
`_make_request` HTTPError envelope, serialized with `indent=2`. -/
def missingTaxEnvelope : String :=
  dumpsInd 0 (.vDict [("error", .vStr "HTTPError"), ("status_code", .vInt 400),
    ("details", .vStr missingTaxDetail)])

/-- The mock API service behind the toolbelt's HTTP layer; of its endpoints
only `/checkout` (the one the claims exercise) is modelled. -/
def mockApiHttp : Http := fun m e payload =>
  if m == "POST" && e == "/checkout" then
    match payload.lookup "json" with
    | some body => mock_checkout body
    | none => .failure "request body missing"
  else .failure "endpoint not modelled"

/-- A decision that tries to check out with the two advertised fields. -/
def envResp : LLMResp :=
  ⟨"Attempting to check out.", "checkout",
    [("shipping_address", .vStr "1 Main St"), ("billing_address", .vStr "1 Main St")]⟩

/-- A Gateway/decoder pair that always produces `envResp`. -/
def envDecode : String → Option LLMResp := fun _ => some envResp

/-- A stub Gateway used where only the decoded value matters. -/
def stubInvoke : String → String := fun _ => "stub"

/-- A tool collaborator that yields the HTTP 400 error envelope. -/
def envTool : String → List (String × PyVal) → Except PyErr String :=
  fun _ _ => .ok missingTaxEnvelope

/-- C2 witness: with the Registry returning the HTTP 400 error envelope
`missingTaxEnvelope` at every step, the envelope is appended to memory as
the `tool_observation` turn of step 1 and the loop goes on to run step 2
rather than terminating. -/
theorem tool_text_observed_and_loop_continues_witness :
    envDecode (stubInvoke (createPrompt samplePersona sampleGoal [])) = some envResp ∧
      envTool envResp.tool_name envResp.parameters = .ok missingTaxEnvelope ∧
      containsStr missingTaxEnvelope checkoutMarker = false ∧
      ((runLoop stubInvoke envDecode envTool samplePersona sampleGoal 2 []).memory.take 2
          = [⟨"assistant", dumpResp envResp⟩, ⟨"tool_observation", missingTaxEnvelope⟩] ∧
        runLoop stubInvoke envDecode envTool samplePersona sampleGoal 2 [] =
          ⟨(runLoop stubInvoke envDecode envTool samplePersona sampleGoal 1
              ([⟨"assistant", dumpResp envResp⟩, ⟨"tool_observation", missingTaxEnvelope⟩])).memory,
            (runLoop stubInvoke envDecode envTool samplePersona sampleGoal 1
              ([⟨"assistant", dumpResp envResp⟩, ⟨"tool_observation", missingTaxEnvelope⟩])).steps + 1,
            (runLoop stubInvoke envDecode envTool samplePersona sampleGoal 1
              ([⟨"assistant", dumpResp envResp⟩, ⟨"tool_observation", missingTaxEnvelope⟩])).outcome⟩) :=
  ⟨rfl, rfl, by decide,
    (tool_text_observed_and_loop_continues stubInvoke envDecode envTool samplePersona
        sampleGoal 1 [] envResp missingTaxEnvelope rfl rfl).1,
    ((tool_text_observed_and_loop_continues stubInvoke envDecode envTool samplePersona
        sampleGoal 1 [] envResp missingTaxEnvelope rfl rfl).2 (by decide))⟩

/-! ### Claim C3 -/

/-- The six operations advertised by `get_tool_descriptions`. -/
def advertisedTools : List String :=
  ["get_products", "search_products", "add_to_cart", "get_cart",
   "get_product_total_cost", "checkout"]

/-- The parameter names of each advertised operation (toolbelt.py 37-55). -/
def toolParamNames : String → List String
  | "search_products" => ["q"]
  | "add_to_cart" => ["item_id", "quantity"]
  | "get_product_total_cost" => ["product_id"]
  | "checkout" => ["shipping_address", "billing_address"]
  | _ => []

/-- A decision whose checkout arguments use a wrong parameter name. -/
def mismatchResp : LLMResp :=
  ⟨"I will checkout now.", "checkout", [("address", .vStr "42 Elm St")]⟩

/-- A decoder that always produces `mismatchResp`. -/
def mismatchDecode : String → Option LLMResp := fun _ => some mismatchResp

/-- C3 (counterexample): an argument mapping whose key does not match
`checkout`'s parameter names makes `use_tool` raise a `TypeError`
(`Except.error`), so no error-observation text is returned; fed to the agent
loop, the exception propagates — the run aborts at step 1 with outcome
`raised` and no `tool_observation` turn — contradicting the claim that the
mismatch surfaces as a catchable tool-level error observation rather than a
loop-aborting fault. -/
theorem argument_mismatch_cex :
    use_tool httpNull "checkout" (.vDict [("address", .vStr "42 Elm St")])
        = .error (argErrE "checkout") ∧
      runLoop stubInvoke mismatchDecode
          (fun nm q => use_tool httpNull nm (.vDict q)) samplePersona sampleGoal 3 []
        = ⟨[⟨"assistant", dumpResp mismatchResp⟩], 1, .raised (argErrE "checkout")⟩ :=
  ⟨rfl, rfl⟩

/-- C3 (amended): for every advertised operation and every argument mapping
whose keys do not match the operation's expected parameter names, invoking
the Tool Registry raises a `TypeError` (it does not return an error
observation text), and the agent loop — which installs no handler around the
tool call — aborts on that exception: the run ends at that step with outcome
`raised`, the decision still in memory and no `tool_observation` appended. -/
theorem argument_mismatch_raises_and_aborts_loop
    (http : Http) (name : String) (hn : name ∈ advertisedTools)
    (ps : List (String × PyVal)) (hk : keysMatch ps (toolParamNames name) = false)
    (invoke : String → String) (decode : String → Option LLMResp)
    (p : Persona) (g : String) (n : Nat) (mem : List MemEntry) (r : LLMResp)
    (hr : decode (invoke (createPrompt p g mem)) = some r)
    (hname : r.tool_name = name) (hps : r.parameters = ps) :
    use_tool http name (.vDict ps) = .error (argErrE name) ∧
      runLoop invoke decode (fun nm q => use_tool http nm (.vDict q)) p g (n + 1) mem
        = ⟨mem ++ [⟨"assistant", dumpResp r⟩], 1, .raised (argErrE name)⟩ := by
  have h1 : use_tool http name (.vDict ps) = .error (argErrE name) := by
    simp only [advertisedTools, List.mem_cons, List.not_mem_nil, or_false] at hn
    rcases hn with rfl | rfl | rfl | rfl | rfl | rfl
    · have hk2 : keysMatch ps [] = false := hk
      simp [use_tool, use_toolGo, hasattrToolbelt, toolbeltAttrs, hk2]
    · have hk2 : keysMatch ps ["q"] = false := hk
      simp [use_tool, use_toolGo, hasattrToolbelt, toolbeltAttrs, hk2]
    · have hk2 : keysMatch ps ["item_id", "quantity"] = false := hk
      simp [use_tool, use_toolGo, hasattrToolbelt, toolbeltAttrs, hk2]
    · have hk2 : keysMatch ps [] = false := hk
      simp [use_tool, use_toolGo, hasattrToolbelt, toolbeltAttrs, hk2]
    · have hk2 : keysMatch ps ["product_id"] = false := hk
      simp [use_tool, use_toolGo, hasattrToolbelt, toolbeltAttrs, hk2]
    · have hk2 : keysMatch ps ["shipping_address", "billing_address"] = false := hk
      simp [use_tool, use_toolGo, hasattrToolbelt, toolbeltAttrs, hk2]
  refine ⟨h1, ?_⟩
  have h2 : (fun nm q => use_tool http nm (.vDict q)) r.tool_name r.parameters
      = .error (argErrE name) := by
    simp only [hname, hps]
    exact h1
  simp [runLoop, hr, h2]

/-- C3 (amended) witness: the wrong-key checkout mapping raises, and the
run aborts at step 1 with the decision in memory and no observation. -/
theorem argument_mismatch_raises_and_aborts_loop_witness :
    ("checkout" ∈ advertisedTools ∧
        keysMatch [("address", PyVal.vStr "42 Elm St")] (toolParamNames "checkout") = false ∧
        mismatchDecode (stubInvoke (createPrompt samplePersona sampleGoal []))
          = some mismatchResp) ∧
      (use_tool httpNull "checkout" (.vDict [("address", .vStr "42 Elm St")])
          = .error (argErrE "checkout") ∧
        runLoop stubInvoke mismatchDecode
            (fun nm q => use_tool httpNull nm (.vDict q)) samplePersona sampleGoal 4 []
          = ⟨[] ++ [⟨"assistant", dumpResp mismatchResp⟩], 1, .raised (argErrE "checkout")⟩) :=
  ⟨⟨by decide, by decide, rfl⟩,
    argument_mismatch_raises_and_aborts_loop httpNull "checkout" (by decide)
      [("address", .vStr "42 Elm St")] (by decide) stubInvoke mismatchDecode
      samplePersona sampleGoal 3 [] mismatchResp rfl rfl rfl⟩

/-! ### Claim C6 -/

/-- A decision that browses the catalog. -/
def browseResp : LLMResp := ⟨"Let me browse the catalog first.", "get_products", []⟩

/-- A decoder that always produces `browseResp`. -/
def browseDecode : String → Option LLMResp := fun _ => some browseResp

/-- A tool collaborator whose observations never contain a goal marker. -/
def catalogTool : String → List (String × PyVal) → Except PyErr String :=
  fun _ _ => .ok ("\x7b\"products\": []\x7d")

/-- C6: the agent loop always terminates, starting at most `max_steps`
iterations for any collaborators, persona, goal and starting memory (the
loop is a total function of a decreasing budget); and in a run where every
step decodes and every observation (decision serialization or tool text) is
free of the goal markers, a budget of 2 is fully consumed: the run performs
exactly 2 steps and the overall success flag computed from its memory is
false. -/
theorem agent_loop_bounded_and_exhausts
    (invoke : String → String) (decode : String → Option LLMResp)
    (useTool : String → List (String × PyVal) → Except PyErr String)
    (p : Persona) (g : String)
    (hdec : ∀ s, (decode s).isSome = true)
    (htool : ∀ nm ps, ∃ t, useTool nm ps = Except.ok t)
    (hobs : ∀ nm ps t, useTool nm ps = Except.ok t →
      containsStr t ("Checkout successful") = false ∧ containsStr t ("ORDER CONFIRMED") = false)
    (hdecm : ∀ s r, decode s = some r →
      containsStr (dumpResp r) ("Checkout successful") = false ∧
        containsStr (dumpResp r) ("ORDER CONFIRMED") = false) :
    (∀ (fuel : Nat) (mem : List MemEntry),
        (runLoop invoke decode useTool p g fuel mem).steps ≤ fuel) ∧
      (Agent_run invoke decode useTool p g 2).steps = 2 ∧
      was_successful (Agent_run invoke decode useTool p g 2).memory = false := by
  refine ⟨runLoop_steps_le invoke decode useTool p g, ?_⟩
  cases h1 : decode (invoke (createPrompt p g [])) with
  | none =>
    have := hdec (invoke (createPrompt p g []))
    rw [h1] at this
    exact absurd this (by simp)
  | some r1 =>
    obtain ⟨t1, ht1⟩ := htool r1.tool_name r1.parameters
    obtain ⟨hm1, hm1o⟩ := hobs _ _ _ ht1
    obtain ⟨ha1, ha1o⟩ := hdecm _ _ h1
    cases h2 : decode (invoke (createPrompt p g
        ([⟨"assistant", dumpResp r1⟩, ⟨"tool_observation", t1⟩]))) with
    | none =>
      have := hdec (invoke (createPrompt p g
        ([⟨"assistant", dumpResp r1⟩, ⟨"tool_observation", t1⟩])))
      rw [h2] at this
      exact absurd this (by simp)
    | some r2 =>
      obtain ⟨t2, ht2⟩ := htool r2.tool_name r2.parameters
      obtain ⟨hm2, hm2o⟩ := hobs _ _ _ ht2
      obtain ⟨ha2, ha2o⟩ := hdecm _ _ h2
      have hrun : Agent_run invoke decode useTool p g 2 =
          ⟨[⟨"assistant", dumpResp r1⟩, ⟨"tool_observation", t1⟩,
            ⟨"assistant", dumpResp r2⟩, ⟨"tool_observation", t2⟩], 2, .exhausted⟩ := by
        have e1 := runLoop_step_ok invoke decode useTool p g 1 [] r1 t1 h1 ht1
          (show containsStr t1 checkoutMarker = false from hm1)
        have e2 := runLoop_step_ok invoke decode useTool p g 0
          ([⟨"assistant", dumpResp r1⟩, ⟨"tool_observation", t1⟩]) r2 t2 h2 ht2
          (show containsStr t2 checkoutMarker = false from hm2)
        show runLoop invoke decode useTool p g (1 + 1) [] = _
        rw [e1]
        simp only [List.nil_append] at e2 ⊢
        rw [show (1 : Nat) = 0 + 1 from rfl, e2]
        simp [runLoop]
      rw [hrun]
      refine ⟨rfl, ?_⟩
      simp [was_successful, hm1, hm1o, hm2, hm2o, ha1, ha1o, ha2, ha2o]

/-- C6 witness: a run whose decisions always browse and whose observations
never carry a marker exhausts a budget of 2 in exactly 2 steps without
success. -/
theorem agent_loop_bounded_and_exhausts_witness :
    (runLoop stubInvoke browseDecode catalogTool samplePersona sampleGoal 5 []).steps ≤ 5 ∧
      (Agent_run stubInvoke browseDecode catalogTool samplePersona sampleGoal 2).steps = 2 ∧
      was_successful
        (Agent_run stubInvoke browseDecode catalogTool samplePersona sampleGoal 2).memory
        = false := by
  have h := agent_loop_bounded_and_exhausts stubInvoke browseDecode catalogTool
    samplePersona sampleGoal (fun s => rfl)
    (fun nm ps => ⟨"\x7b\"products\": []\x7d", rfl⟩)
    (fun nm ps t ht => by cases ht; exact ⟨by decide, by decide⟩)
    (fun s r hr => by cases hr; exact ⟨by decide, by decide⟩)
  exact ⟨h.1 5 [], h.2⟩

/-! ### Claim C7 -/

/-- C7: for every argument mapping and every HTTP collaborator, invoking the
Tool Registry with the operation name `"nonexistent_tool"` returns — without
raising — exactly the JSON text
`\x7b"error": "Tool \x27nonexistent_tool\x27 not found."\x7d`. -/
theorem nonexistent_tool_returns_error_json (http : Http) (ps : List (String × PyVal)) :
    use_tool http "nonexistent_tool" (.vDict ps) = .ok (notFoundText "nonexistent_tool") ∧
      notFoundText "nonexistent_tool"
        = "\x7b\"error\": \"Tool \x27nonexistent_tool\x27 not found.\"\x7d" :=
  ⟨rfl, by decide⟩

/-! ### Claim C8 -/

/-- A memory holding a checkout observation but no `ORDER CONFIRMED`. -/
def checkoutOnlyMem : List MemEntry :=
  [⟨"tool_observation", "\x7b\"message\": \"Checkout successful\", \"order_id\": \"12345\"\x7d"⟩]

/-- C8 (counterexample): the success scan of api_server.py looks for
*either* `"Checkout successful"` or `"ORDER CONFIRMED"`, so a Memory
containing no `ORDER CONFIRMED` marker can still yield overall success =
true — refuting the claim that a Memory with no such marker yields false. -/
theorem success_scan_two_markers_cex :
    was_successful checkoutOnlyMem = true ∧
      checkoutOnlyMem.any (fun e => containsStr e.content ("ORDER CONFIRMED")) = false :=
  ⟨by decide, by decide⟩

/-- C8 (amended): the success flag is computed by scanning the full Memory
for the two goal-completion markers `"Checkout successful"` and
`"ORDER CONFIRMED"`: a Memory with an entry containing `ORDER CONFIRMED`
yields true, and a Memory none of whose entries contains either marker
yields false. -/
theorem success_scan_ranges_over_both_markers (mem : List MemEntry) :
    ((∃ e ∈ mem, containsStr e.content ("ORDER CONFIRMED") = true) →
        was_successful mem = true) ∧
      ((∀ e ∈ mem, containsStr e.content ("Checkout successful") = false ∧
          containsStr e.content ("ORDER CONFIRMED") = false) →
        was_successful mem = false) := by
  constructor
  · rintro ⟨e, he, hc⟩
    simp only [was_successful, List.any_eq_true]
    exact ⟨e, he, by simp [hc]⟩
  · intro h
    simp only [was_successful, List.any_eq_false]
    intro e he
    obtain ⟨h1, h2⟩ := h e he
    simp [h1, h2]

/-- A memory holding an order confirmation. -/
def orderConfirmedMem : List MemEntry := [⟨"tool_observation", "Status: ORDER CONFIRMED."⟩]

/-- A memory holding no marker at all. -/
def noMarkerMem : List MemEntry := [⟨"assistant", "nothing to see here"⟩]

/-- C8 (amended) witness: an `ORDER CONFIRMED` observation yields success,
and a marker-free memory does not. -/
theorem success_scan_ranges_over_both_markers_witness :
    was_successful orderConfirmedMem = true ∧ was_successful noMarkerMem = false :=
  ⟨(success_scan_ranges_over_both_markers orderConfirmedMem).1
      ⟨⟨"tool_observation", "Status: ORDER CONFIRMED."⟩, by simp [orderConfirmedMem], by decide⟩,
    (success_scan_ranges_over_both_markers noMarkerMem).2
      (by
        intro e he
        simp only [noMarkerMem, List.mem_singleton] at he
        subst he
        exact ⟨by decide, by decide⟩)⟩

/-! ### Claim C9 -/

/-- C9: for every shipping/billing address pair, a checkout invocation
through the Tool Registry against the mock API — which demands the
undocumented `tax_id` that the advertised operation never sends — returns
the HTTP 400 error envelope `missingTaxEnvelope` (status_code 400, missing
field `tax_id`), a text that never contains the success marker
`"Checkout successful"`. -/
theorem checkout_always_http400
    (http : Http)
    (hhttp : ∀ body, http "POST" "/checkout" [("json", body)] = mock_checkout body)
    (ship bill : PyVal) :
    use_tool http "checkout" (.vDict [("shipping_address", ship), ("billing_address", bill)])
        = .ok missingTaxEnvelope ∧
      containsStr missingTaxEnvelope ("\"status_code\": 400") = true ∧
      containsStr missingTaxEnvelope ("tax_id") = true ∧
      containsStr missingTaxEnvelope ("Checkout successful") = false := by
  refine ⟨?_, by decide, by decide, by decide⟩
  have h := hhttp (.vDict [("shipping_address", ship), ("billing_address", bill)])
  calc use_tool http "checkout" (.vDict [("shipping_address", ship), ("billing_address", bill)])
      = .ok (dumpsInd 0 (_make_request http "POST" "/checkout"
          [("json", .vDict [("shipping_address", ship), ("billing_address", bill)])])) := rfl
    _ = .ok missingTaxEnvelope := by
        unfold _make_request
        rw [h]
        rfl

/-- C9 witness: the envelope at a concrete address pair. -/
theorem checkout_always_http400_witness :
    mockApiHttp "POST" "/checkout"
        [("json", .vDict [("shipping_address", .vStr "1 Main St"),
          ("billing_address", .vStr "2 Oak Ave")])]
      = mock_checkout (.vDict [("shipping_address", .vStr "1 Main St"),
          ("billing_address", .vStr "2 Oak Ave")]) ∧
      (use_tool mockApiHttp "checkout"
          (.vDict [("shipping_address", .vStr "1 Main St"),
            ("billing_address", .vStr "2 Oak Ave")])
        = .ok missingTaxEnvelope ∧
       containsStr missingTaxEnvelope ("\"status_code\": 400") = true ∧
       containsStr missingTaxEnvelope ("tax_id") = true ∧
       containsStr missingTaxEnvelope ("Checkout successful") = false) :=
  ⟨rfl, checkout_always_http400 mockApiHttp (fun _ => rfl)
    (.vStr "1 Main St") (.vStr "2 Oak Ave")⟩

/-! ### Claim C10 -/

/-- C10: tool lookup in `use_tool` is `hasattr` on the Toolbelt object, not
membership in a closed tool table: every name outside the attribute table
gets the `Tool not found` JSON (and only those — the four non-tool
attributes below all pass the check and are invoked as if they were tools:
`base_url`, a string, raises `TypeError: not callable`; `use_tool` and
`_make_request` are entered and raise `TypeError` for the missing arguments
of the empty mapping; `get_tool_descriptions` is called and its catalog
string is serialized and returned — none of them yields the not-found
error). -/
theorem use_tool_lookup_is_duck_typed (http : Http) :
    (∀ (name : String) (ps : List (String × PyVal)), hasattrToolbelt name = false →
        use_tool http name (.vDict ps) = .ok (notFoundText name)) ∧
      (hasattrToolbelt "base_url" = true ∧
        ∀ ps : List (String × PyVal),
          use_tool http "base_url" (.vDict ps)
            = .error (.typeError "\x27str\x27 object is not callable")) ∧
      (hasattrToolbelt "use_tool" = true ∧
        use_tool http "use_tool" (.vDict []) = .error (argErrE "use_tool")) ∧
      (hasattrToolbelt "get_tool_descriptions" = true ∧
        use_tool http "get_tool_descriptions" (.vDict [])
          = .ok (dumpsInd 0 (.vStr get_tool_descriptions)) ∧
        dumpsInd 0 (.vStr get_tool_descriptions) ≠ notFoundText "get_tool_descriptions") ∧
      (hasattrToolbelt "_make_request" = true ∧
        use_tool http "_make_request" (.vDict []) = .error (argErrE "_make_request")) := by
  refine ⟨?_, ⟨rfl, fun ps => rfl⟩, ⟨rfl, rfl⟩, ⟨rfl, rfl, by decide⟩, ⟨rfl, rfl⟩⟩
  intro name ps h
  simp [use_tool, use_toolGo, h]

/-- C10 witness: a name outside the table gets the not-found JSON, and the
non-tool attributes are invoked. -/
theorem use_tool_lookup_is_duck_typed_witness :
    (hasattrToolbelt "definitely_not_a_tool" = false ∧
        use_tool httpNull "definitely_not_a_tool" (.vDict [])
          = .ok (notFoundText "definitely_not_a_tool")) ∧
      use_tool httpNull "base_url" (.vDict [])
        = .error (.typeError "\x27str\x27 object is not callable") ∧
      use_tool httpNull "use_tool" (.vDict []) = .error (argErrE "use_tool") :=
  ⟨⟨by decide, (use_tool_lookup_is_duck_typed httpNull).1 "definitely_not_a_tool" [] (by decide)⟩,
    ((use_tool_lookup_is_duck_typed httpNull).2.1.2 []),
    (use_tool_lookup_is_duck_typed httpNull).2.2.1.2⟩

end PersonaFlow
